import Mathlib

/-!
Shallow embedding of the storyteller repository core: the Job Store schema
(supabase/migrations/20250628192736_late_flame.sql), the Processing Worker
(supabase/functions/process-story/index.ts), the deletion stats recompute
(supabase/functions/delete-story/index.ts), the alternative stats trigger
(src/unnamed/part_008), the client data layer (src/lib/supabase.ts) and the
client reconciliation logic (src/hooks/useStories.ts).
-/

namespace Storyteller

/-- Status enum of the stories.processing_status column
(CHECK constraint in 20250628192736_late_flame.sql). -/
inductive Status where
  | pending
  | processing
  | completed
  | failed
deriving DecidableEq, Repr

/-- Row of the stories table. created_at is modelled as the calendar day
number of the creation timestamp (an Int), which is the granularity the
streak logic reads. -/
structure Story where
  id : Nat
  user_id : Nat
  genre : String
  duration_seconds : Nat
  audio_url : Option String
  transcript : Option String
  feedback_personality : String
  processing_status : Status
  created_at : Int
deriving DecidableEq, Repr

/-- Row of the story_feedback table. Note the schema puts no UNIQUE
constraint on story_id. -/
structure FeedbackRow where
  story_id : Nat
  feedback_text : String
  strengths : List String
  improvements : List String
  next_steps : List String
  overall_score : Nat
deriving DecidableEq, Repr

/-- Row of the user_stats table. -/
structure UserStatsRow where
  user_id : Nat
  total_stories : Nat
  total_minutes : Nat
  current_streak : Nat
  longest_streak : Nat
  favorite_genre : Option String
  last_story_date : Option Int
deriving DecidableEq, Repr

/-- Durable database state: the four tables the claims touch.
user_achievements rows are (user_id, achievement_id) pairs; the schema
declares UNIQUE(user_id, achievement_id). -/
structure DB where
  stories : List Story
  story_feedback : List FeedbackRow
  user_achievements : List (Nat × String)
  user_stats : List UserStatsRow
deriving DecidableEq, Repr

/-- An UPDATE ... WHERE id = sid on the stories table: every row whose id
matches is rewritten by f. -/
def updateStories (db : DB) (sid : Nat) (f : Story → Story) : DB :=
  { db with stories := db.stories.map (fun s => if s.id == sid then f s else s) }

/-- The worker write `update({ processing_status: v }).eq('id', storyId)`. -/
def setStatus (db : DB) (sid : Nat) (v : Status) : DB :=
  updateStories db sid (fun s => { s with processing_status := v })

/-- The worker final write `update({ transcript, processing_status: 'completed' })`
(process-story/index.ts lines 69-75). -/
def setTranscriptCompleted (db : DB) (sid : Nat) (t : String) : DB :=
  updateStories db sid
    (fun s => { s with transcript := some t, processing_status := Status.completed })

/-- INSERT into story_feedback: a plain append, nothing deduplicates on
story_id. -/
def insertFeedback (db : DB) (row : FeedbackRow) : DB :=
  { db with story_feedback := db.story_feedback ++ row :: [] }

/-- SELECT ... WHERE id = sid LIMIT 1. -/
def findStory (db : DB) (sid : Nat) : Option Story :=
  db.stories.find? (fun s => s.id == sid)

def storyStatus (db : DB) (sid : Nat) : Option Status :=
  (findStory db sid).map (fun s => s.processing_status)

def storyTranscript (db : DB) (sid : Nat) : Option String :=
  (findStory db sid).bind (fun s => s.transcript)

/-- Number of feedback rows attached to a story. -/
def feedbackCount (db : DB) (sid : Nat) : Nat :=
  (db.story_feedback.filter (fun f => f.story_id == sid)).length

/-- Partial story update as passed to db.updateStory (src/lib/supabase.ts
lines 283-299): only the fields present in the patch are overwritten. -/
structure StoryPatch where
  transcript : Option String
  processing_status : Option Status
deriving DecidableEq, Repr

def applyPatch (p : StoryPatch) (s : Story) : Story :=
  { s with
    transcript := match p.transcript with
      | some t => some t
      | none => s.transcript
    processing_status := match p.processing_status with
      | some v => v
      | none => s.processing_status }

/-- db.updateStory (src/lib/supabase.ts lines 283-299): applies the patch to
the matching row unconditionally; there is no check of the current status. -/
def updateStory (db : DB) (sid : Nat) (p : StoryPatch) : DB :=
  updateStories db sid (applyPatch p)

/-! Capability environment of the Processing Worker. The two OpenAI calls
are opaque; the environment records the outcome each would produce. -/

/-- Result of JSON.parse on the GPT response content: each expected field may
be absent (undefined in the source). -/
structure ParsedFeedback where
  detailed_feedback : Option String
  strengths : Option (List String)
  improvements : Option (List String)
  next_steps : Option (List String)
  score : Option Nat
deriving DecidableEq, Repr

/-- Return type of generateFeedback. detailed_feedback stays optional
because the source forwards parsedFeedback.detailed_feedback without a
default, so it can be undefined. -/
structure GenFeedback where
  detailed_feedback : Option String
  strengths : List String
  improvements : List String
  next_steps : List String
  score : Nat
deriving DecidableEq, Repr

/-- One invocation worth of external-world outcomes. whisperResult and
gptResult are the outcomes the network calls would have; the three Fails
flags are the outcomes of the three Supabase writes in the handler. -/
structure Env where
  hasOpenAIKey : Bool
  whisperResult : Except String String
  mockTranscript : String
  gptResult : Except String String
  parseJson : Option ParsedFeedback
  mockFeedback : GenFeedback
  markProcessingFails : Bool
  feedbackInsertFails : Bool
  finalUpdateFails : Bool

/-- transcribeAudio (process-story/index.ts lines 124-178): without an API
key it returns a mock transcript; with one, any download or Whisper error is
caught and also falls back to the mock transcript. It never propagates an
error. -/
def transcribeAudio (env : Env) : String :=
  if !env.hasOpenAIKey then env.mockTranscript
  else
    match env.whisperResult with
    | Except.ok t => t.trim
    | Except.error _ => env.mockTranscript

/-- generateFeedback (process-story/index.ts lines 180-273): without an API
key it returns mock feedback; a GPT network error or a JSON.parse failure is
caught and also falls back to mock feedback. A successfully parsed object is
forwarded with JS defaulting: arrays default to [] when absent, score
defaults to 7 when absent or 0 (JS falsy), detailed_feedback is forwarded
as-is. -/
def generateFeedback (env : Env) : GenFeedback :=
  if !env.hasOpenAIKey then env.mockFeedback
  else
    match env.gptResult with
    | Except.error _ => env.mockFeedback
    | Except.ok _ =>
      match env.parseJson with
      | none => env.mockFeedback
      | some p =>
        { detailed_feedback := p.detailed_feedback
          strengths := p.strengths.getD []
          improvements := p.improvements.getD []
          next_steps := p.next_steps.getD []
          score := match p.score with
            | some n => if n = 0 then 7 else n
            | none => 7 }

/-- Body of the POST to the process-story function. -/
structure ProcessStoryRequest where
  storyId : Nat
  audioUrl : String
  feedbackPersonality : String
deriving DecidableEq, Repr

/-- A fetch Request: the body can be read once. body = none models a body
that is not valid JSON. -/
structure Request where
  body : Option ProcessStoryRequest
  bodyConsumed : Bool
deriving DecidableEq, Repr

/-- await req.json(): consumes the body; throws if it was already consumed
or is not valid JSON. The request state after the call is consumed in every
case. -/
def consumeJson (r : Request) : Except Unit ProcessStoryRequest × Request :=
  (if r.bodyConsumed then Except.error ()
   else
     match r.body with
     | some b => Except.ok b
     | none => Except.error (),
   { r with bodyConsumed := true })

/-- Method surface of the builder that a supabase-js v2 insert call returns:
conflict handling in v2 lives on upsert (with ignoreDuplicates), so the
v1-era onConflict and ignore methods are not among the insert builder
methods. -/
def v2InsertBuilderMethods : List String :=
  ["select", "eq", "neq", "gt", "gte", "lt", "lte", "order", "limit",
   "single", "maybeSingle", "csv", "throwOnError"]

/-- One grant attempt of checkAchievements (process-story/index.ts lines
459-467): insert(record).onConflict(cols).ignore() on the v2 client.
Evaluating the chain looks up onConflict on the insert builder; the method is
absent in v2, so the property access yields undefined and calling it throws a
TypeError before any row is written. The ok branch carries the
conflict-ignoring insert semantics the method names request (against
UNIQUE(user_id, achievement_id)); it is reached only if the method existed. -/
def grantAttempt (grants : List (Nat × String)) (uid : Nat) (aid : String) :
    Except String (List (Nat × String)) :=
  if "onConflict" ∈ v2InsertBuilderMethods then
    Except.ok (if (uid, aid) ∈ grants then grants else grants ++ (uid, aid) :: [])
  else
    Except.error "TypeError"

/-- The for-loop over achievementsToGrant (process-story/index.ts lines
459-474): a thrown TypeError aborts the loop and propagates to the catch of
checkAchievements. -/
def grantLoop (g : List (Nat × String)) (uid : Nat) :
    List String → Except String (List (Nat × String))
  | [] => Except.ok g
  | aid :: rest =>
    match grantAttempt g uid aid with
    | Except.ok g2 => grantLoop g2 uid rest
    | Except.error e => Except.error e

/-- The achievementsToGrant list built in checkAchievements
(process-story/index.ts lines 430-456), in push order. -/
def achievementsToGrant (stats : UserStatsRow) (story : Story) : List String :=
  (if stats.total_stories == 1 then "first_story" :: [] else []) ++
  (if story.duration_seconds ≥ 900 then "marathon_storyteller" :: [] else []) ++
  (if stats.total_stories ≥ 100 then "century_club" :: [] else []) ++
  (if stats.current_streak ≥ 7 then "week_warrior" :: [] else []) ++
  (if stats.current_streak ≥ 30 then "master_storyteller" :: [] else [])

def findStats (db : DB) (uid : Nat) : Option UserStatsRow :=
  db.user_stats.find? (fun r => r.user_id == uid)

/-- checkAchievements (process-story/index.ts lines 410-478): reads the
story and the user stats, then runs the grant loop. Missing story or stats
make it a no-op; the TypeError thrown by the first grant attempt lands in
the surrounding try/catch, which logs and returns, so a failed loop leaves
the database unchanged and nothing propagates to the caller. -/
def checkAchievements (db : DB) (sid : Nat) : DB :=
  match findStory db sid with
  | none => db
  | some story =>
    match findStats db story.user_id with
    | none => db
    | some stats =>
      match grantLoop db.user_achievements story.user_id (achievementsToGrant stats story) with
      | Except.ok g2 => { db with user_achievements := g2 }
      | Except.error _ => db

/-- The catch block of the Deno.serve handler (process-story/index.ts lines
95-121): it re-reads req.json() to learn the storyId and, if that succeeds,
writes processing_status failed. The inner try/catch swallows any error.
Returns the new DB plus the status writes it performed. -/
def catchBlock (req : Request) (db : DB) : DB × List (Nat × Status) :=
  match (consumeJson req).1 with
  | Except.ok b => (setStatus db b.storyId Status.failed, (b.storyId, Status.failed) :: [])
  | Except.error _ => (db, [])

/-- Result of one worker invocation: final database, HTTP status code, and
the story status writes performed in order. -/
structure RunResult where
  db : DB
  httpStatus : Nat
  writes : List (Nat × Status)
deriving DecidableEq, Repr

/-- The Deno.serve handler of process-story/index.ts lines 15-122, one
invocation. Steps: parse body; mark processing; transcribe (never fails);
generate feedback (never fails, but logging detailed_feedback.substring
throws when the parsed field was absent); insert feedback; write transcript
plus completed; checkAchievements. Every throw lands in the catch block with
the already-consumed request. -/
def processStoryHandler (env : Env) (req : Request) (db : DB) : RunResult :=
  let parsed := (consumeJson req).1
  let req1 := (consumeJson req).2
  match parsed with
  | Except.error _ =>
    let c := catchBlock req1 db
    ⟨c.1, 500, c.2⟩
  | Except.ok body =>
    if env.markProcessingFails then
      let c := catchBlock req1 db
      ⟨c.1, 500, c.2⟩
    else
      let db1 := setStatus db body.storyId Status.processing
      let w1 : List (Nat × Status) := (body.storyId, Status.processing) :: []
      let transcript := transcribeAudio env
      let feedback := generateFeedback env
      match feedback.detailed_feedback with
      | none =>
        let c := catchBlock req1 db1
        ⟨c.1, 500, w1 ++ c.2⟩
      | some text =>
        if env.feedbackInsertFails then
          let c := catchBlock req1 db1
          ⟨c.1, 500, w1 ++ c.2⟩
        else
          let db2 := insertFeedback db1
            ⟨body.storyId, text, feedback.strengths, feedback.improvements,
             feedback.next_steps, feedback.score⟩
          if env.finalUpdateFails then
            let c := catchBlock req1 db2
            ⟨c.1, 500, w1 ++ c.2⟩
          else
            let db3 := setTranscriptCompleted db2 body.storyId transcript
            let db4 := checkAchievements db3 body.storyId
            ⟨db4, 200, w1 ++ (body.storyId, Status.completed) :: []⟩

/-- The status transitions a given story undergoes during a run: the chain
from its initial status through each write addressed to it. -/
def transitionsFor (db0 : DB) (writes : List (Nat × Status)) (sid : Nat) :
    List (Status × Status) :=
  match storyStatus db0 sid with
  | none => []
  | some s0 =>
    let ws := (writes.filter (fun w => w.1 == sid)).map Prod.snd
    (s0 :: ws).zip ws

/-- The forward transitions of the Job status lattice as the spec lists
them: pending to processing, processing to completed, processing to failed,
and pending to failed. -/
def forwardTransition : Status → Status → Bool
  | Status.pending, Status.processing => true
  | Status.processing, Status.completed => true
  | Status.processing, Status.failed => true
  | Status.pending, Status.failed => true
  | _, _ => false

/-! Stats computations. Three code paths write total_minutes and streaks:
the insert trigger of 20250628192736_late_flame.sql, the insert trigger of
src/unnamed/part_008, and the recompute in delete-story/index.ts. -/

/-- Math.ceil(d / 60) for a nonnegative integer duration, as computed by
delete-story/index.ts line 150 and CEIL(d / 60.0) in part_008. -/
def ceilDiv60 (d : Nat) : Nat := (d + 59) / 60

/-- The spec formula: sum over jobs of the ceiling of duration over 60,
written independently of any code path. -/
def specTotalMinutes (durations : List Nat) : Nat :=
  (durations.map (fun d => d / 60 + (if d % 60 = 0 then 0 else 1))).sum

/-- totalMinutes in updateUserStatsAfterDeletion (delete-story/index.ts
lines 148-151): reduce over the remaining stories of Math.ceil(d / 60). -/
def totalMinutesAfterDeletion (durations : List Nat) : Nat :=
  durations.foldl (fun sum d => sum + ceilDiv60 d) 0

/-- The currentStreak loop of updateUserStatsAfterDeletion
(delete-story/index.ts lines 162-178): walk the stories newest first; at
index i the story counts exactly when its day distance from today equals the
running streak; the first mismatch breaks the loop. -/
def deleteStreakLoop : List Int → Int → Nat → Nat
  | [], _, streak => streak
  | d :: rest, today, streak =>
    if today - d = (streak : Int) then deleteStreakLoop rest today (streak + 1)
    else streak

def currentStreakAfterDeletion (today : Int) (days : List Int) : Nat :=
  deleteStreakLoop days today 0

def countGenre (stories : List Story) (g : String) : Nat :=
  (stories.filter (fun s => s.genre == g)).length

/-- favoriteGenre of updateUserStatsAfterDeletion (delete-story/index.ts
lines 154-160): highest count wins; the stable sort keeps the genre whose
first story occurs first on ties. -/
def favoriteGenre (stories : List Story) : Option String :=
  ((stories.map (fun s => s.genre)).eraseDups).foldl
    (fun best g =>
      match best with
      | none => some g
      | some b => if countGenre stories g > countGenre stories b then some g else best)
    none

/-- The user_stats UPDATE performed by updateUserStatsAfterDeletion
(delete-story/index.ts lines 180-195). The update object has no
longest_streak field, so that column keeps its previous value. Stories are
the remaining stories, newest first; today is the current calendar day. -/
def statsAfterDeletion (prev : UserStatsRow) (today : Int) (stories : List Story) :
    UserStatsRow :=
  { prev with
    total_stories := stories.length
    total_minutes := totalMinutesAfterDeletion (stories.map (fun s => s.duration_seconds))
    current_streak := currentStreakAfterDeletion today (stories.map (fun s => s.created_at))
    favorite_genre := favoriteGenre stories
    last_story_date := stories.head?.map (fun s => s.created_at) }

/-- The update_user_stats trigger of 20250628192736_late_flame.sql lines
210-224: on story insert, upsert that adds duration_seconds / 60 with
integer (flooring) division, and does not touch the streak columns. -/
def lateFlameInsertStats (prev : Option UserStatsRow) (uid : Nat)
    (durationSeconds : Nat) (today : Int) : UserStatsRow :=
  match prev with
  | none =>
    { user_id := uid
      total_stories := 1
      total_minutes := durationSeconds / 60
      current_streak := 0
      longest_streak := 0
      favorite_genre := none
      last_story_date := some today }
  | some p =>
    { p with
      total_stories := p.total_stories + 1
      total_minutes := p.total_minutes + durationSeconds / 60
      last_story_date := some today }

/-- The update_user_stats trigger of src/unnamed/part_008 lines 25-93: on
story insert, CEIL(duration / 60.0) is added; the streak is maintained
incrementally from days_diff against last_story_date (plus one on a
one-day gap, unchanged on a same-day story, reset to 1 otherwise, and 1 for
a fresh record), and longest_streak is the running maximum. -/
def part008InsertStats (prev : Option UserStatsRow) (uid : Nat)
    (durationSeconds : Nat) (storyDate : Int) (favGenre : Option String) :
    UserStatsRow :=
  match prev with
  | none =>
    { user_id := uid
      total_stories := 1
      total_minutes := ceilDiv60 durationSeconds
      current_streak := 1
      longest_streak := 1
      favorite_genre := none
      last_story_date := some storyDate }
  | some p =>
    let newCur :=
      match p.last_story_date with
      | some last =>
        if storyDate - last = 1 then p.current_streak + 1
        else if storyDate - last = 0 then p.current_streak
        else 1
      | none => 1
    { p with
      total_stories := p.total_stories + 1
      total_minutes := p.total_minutes + ceilDiv60 durationSeconds
      current_streak := newCur
      longest_streak := max p.longest_streak newCur
      last_story_date := some storyDate
      favorite_genre := favGenre }

/-! Client data layer and reconciliation logic. -/

/-- Ordering used by db.getUserStories: newest first by created_at. -/
def newerEq (a b : Story) : Prop := b.created_at ≤ a.created_at

instance : DecidableRel newerEq := fun a b =>
  (inferInstance : Decidable (b.created_at ≤ a.created_at))

instance : IsTotal Story newerEq :=
  ⟨fun a b => le_total b.created_at a.created_at⟩

instance : IsTrans Story newerEq :=
  ⟨fun _ _ _ hab hbc => le_trans hbc hab⟩

/-- db.getUserStories (src/lib/supabase.ts lines 262-281): the stories of
the owner, ordered by created_at descending, truncated to the limit. -/
def getUserStories (stories : List Story) (uid : Nat) (limit : Nat) : List Story :=
  (List.insertionSort newerEq (stories.filter (fun s => s.user_id == uid))).take limit

/-- Every call site (the useStories variants in src/hooks/useStories.ts and
src/unnamed/part_004) passes no limit argument, so the default limit = 10
applies. -/
def getUserStoriesDefault (stories : List Story) (uid : Nat) : List Story :=
  getUserStories stories uid 10

/-- A story as held in the client query cache: the joined story_feedback
array from the select. -/
structure CachedStory where
  id : Nat
  processing_status : Status
  story_feedback : List FeedbackRow
deriving DecidableEq, Repr

/-- Client reconciliation state: the tracked story id (processingStoryId)
and the query cache. -/
structure ClientState where
  processingStoryId : Option Nat
  cache : List CachedStory
deriving DecidableEq, Repr

/-- Payload of a realtime UPDATE event on the stories table. -/
structure StoryEvent where
  id : Nat
  processing_status : Status
deriving DecidableEq, Repr

/-- The feedback select of loadStoryFeedback: rows of story_feedback
readable for the story (visible models what the replica serves). -/
def fetchFeedback (visible : List FeedbackRow) (sid : Nat) : List FeedbackRow :=
  visible.filter (fun f => f.story_id == sid)

def updateCacheFeedback (st : ClientState) (sid : Nat) (fb : List FeedbackRow) :
    ClientState :=
  let cache2 := st.cache.map
    (fun s => if s.id == sid then { s with story_feedback := fb } else s)
  { st with cache := cache2 }

/-- The setQueryData merge performed on every realtime UPDATE: the cached
story is overwritten with the event payload fields. -/
def mergeCache (st : ClientState) (u : StoryEvent) : ClientState :=
  let cache2 := st.cache.map
    (fun s => if s.id == u.id then { s with processing_status := u.processing_status }
              else s)
  { st with cache := cache2 }

/-- loadStoryFeedback of the first useStories variant
(src/hooks/useStories.ts lines 85-114): fetches the feedback rows and writes
them into the cache; it does not touch processingStoryId and swallows
errors. -/
def loadStoryFeedbackV1 (visible : List FeedbackRow) (st : ClientState) (sid : Nat) :
    ClientState :=
  updateCacheFeedback st sid (fetchFeedback visible sid)

/-- loadStoryFeedback of the variant at src/hooks/useStories.ts lines
609-642: same fetch and cache write, but processingStoryId is cleared only
when the fetched feedback list is nonempty. -/
def loadStoryFeedbackV3 (visible : List FeedbackRow) (st : ClientState) (sid : Nat) :
    ClientState :=
  let st1 := updateCacheFeedback st sid (fetchFeedback visible sid)
  if (fetchFeedback visible sid).length > 0 then { st1 with processingStoryId := none }
  else st1

/-- The realtime UPDATE handler of the first useStories variant
(src/hooks/useStories.ts lines 43-75): merge the payload into the cache;
when the tracked story reports completed, load its feedback and then clear
processingStoryId unconditionally (the then-callback after
loadStoryFeedback); when it reports failed, clear immediately. -/
def realtimeUpdateV1 (visible : List FeedbackRow) (st : ClientState) (u : StoryEvent) :
    ClientState :=
  let st1 := mergeCache st u
  if u.processing_status == Status.completed && st.processingStoryId == some u.id then
    let st2 := loadStoryFeedbackV1 visible st1 u.id
    { st2 with processingStoryId := none }
  else if u.processing_status == Status.failed && st.processingStoryId == some u.id then
    { st1 with processingStoryId := none }
  else st1

/-- The realtime UPDATE handler of the variant at src/hooks/useStories.ts
lines 545-581: on completed, the feedback load runs when the event story is
the tracked one, or when some story is tracked and the stories list shows no
completed story under the tracked id; resolution is delegated to
loadStoryFeedbackV3. -/
def realtimeUpdateV3 (stories : List CachedStory) (visible : List FeedbackRow)
    (st : ClientState) (u : StoryEvent) : ClientState :=
  let st1 := mergeCache st u
  if u.processing_status == Status.completed then
    let cond :=
      match st.processingStoryId with
      | some pid =>
        pid == u.id ||
          !(stories.any (fun s => s.id == pid && s.processing_status == Status.completed))
      | none => false
    if cond then loadStoryFeedbackV3 visible st1 u.id else st1
  else if u.processing_status == Status.failed && st.processingStoryId == some u.id then
    { st1 with processingStoryId := none }
  else st1

/-! Helper lemmas about the embedded operations. -/

theorem find?_update_self (l : List Story) (sid : Nat) (f : Story → Story)
    (hf : ∀ s, (f s).id = s.id) :
    (l.map (fun s => if s.id == sid then f s else s)).find? (fun s => s.id == sid)
      = (l.find? (fun s => s.id == sid)).map f := by
  induction l with
  | nil => rfl
  | cons a l ih =>
    simp only [List.map_cons]
    by_cases h : (a.id == sid) = true
    · have hfb : ((f a).id == sid) = true := by
        rw [hf a]
        exact h
      rw [if_pos h]
      simp only [List.find?_cons, hfb, h]
      rfl
    · have h2 : (a.id == sid) = false := by simpa using h
      rw [if_neg h]
      simp only [List.find?_cons, h2]
      exact ih

theorem find?_update_other (l : List Story) (t sid : Nat) (f : Story → Story)
    (hf : ∀ s, (f s).id = s.id) (hne : ¬ t = sid) :
    (l.map (fun s => if s.id == t then f s else s)).find? (fun s => s.id == sid)
      = l.find? (fun s => s.id == sid) := by
  induction l with
  | nil => rfl
  | cons a l ih =>
    simp only [List.map_cons]
    by_cases h : (a.id == t) = true
    · have hid : a.id = t := by simpa using h
      have h3 : (a.id == sid) = false := by simp [hid, hne]
      have h2 : (((f a).id == sid)) = false := by
        rw [hf a]
        exact h3
      rw [if_pos h]
      simp only [List.find?_cons, h2, h3]
      exact ih
    · by_cases h4 : (a.id == sid) = true
      · rw [if_neg h]
        simp only [List.find?_cons, h4]
      · have h5 : (a.id == sid) = false := by simpa using h4
        rw [if_neg h]
        simp only [List.find?_cons, h5]
        exact ih

theorem findStory_updateStories_self (db : DB) (sid : Nat) (f : Story → Story)
    (hf : ∀ s, (f s).id = s.id) :
    findStory (updateStories db sid f) sid = (findStory db sid).map f :=
  find?_update_self db.stories sid f hf

theorem findStory_updateStories_other (db : DB) (t sid : Nat) (f : Story → Story)
    (hf : ∀ s, (f s).id = s.id) (hne : ¬ t = sid) :
    findStory (updateStories db t f) sid = findStory db sid :=
  find?_update_other db.stories t sid f hf hne

theorem storyStatus_setStatus_self (db : DB) (sid : Nat) (v : Status) :
    storyStatus (setStatus db sid v) sid = (storyStatus db sid).map (fun _ => v) := by
  unfold storyStatus setStatus
  rw [findStory_updateStories_self db sid
    (fun s => { s with processing_status := v }) (fun s => rfl)]
  cases findStory db sid <;> rfl

theorem storyStatus_setStatus_other (db : DB) (t sid : Nat) (v : Status)
    (hne : ¬ t = sid) :
    storyStatus (setStatus db t v) sid = storyStatus db sid := by
  unfold storyStatus setStatus
  rw [findStory_updateStories_other db t sid
    (fun s => { s with processing_status := v }) (fun s => rfl) hne]

theorem storyStatus_setTranscriptCompleted_self (db : DB) (sid : Nat) (t : String) :
    storyStatus (setTranscriptCompleted db sid t) sid
      = (storyStatus db sid).map (fun _ => Status.completed) := by
  unfold storyStatus setTranscriptCompleted
  rw [findStory_updateStories_self db sid
    (fun s => { s with transcript := some t, processing_status := Status.completed })
    (fun s => rfl)]
  cases findStory db sid <;> rfl

theorem storyStatus_setTranscriptCompleted_other (db : DB) (t sid : Nat) (tr : String)
    (hne : ¬ t = sid) :
    storyStatus (setTranscriptCompleted db t tr) sid = storyStatus db sid := by
  unfold storyStatus setTranscriptCompleted
  rw [findStory_updateStories_other db t sid
    (fun s => { s with transcript := some tr, processing_status := Status.completed })
    (fun s => rfl) hne]

theorem storyStatus_insertFeedback (db : DB) (row : FeedbackRow) (sid : Nat) :
    storyStatus (insertFeedback db row) sid = storyStatus db sid := rfl

theorem checkAchievements_stories (db : DB) (sid : Nat) :
    (checkAchievements db sid).stories = db.stories := by
  unfold checkAchievements
  split
  · rfl
  · split
    · rfl
    · split
      · rfl
      · rfl

theorem checkAchievements_feedback (db : DB) (sid : Nat) :
    (checkAchievements db sid).story_feedback = db.story_feedback := by
  unfold checkAchievements
  split
  · rfl
  · split
    · rfl
    · split
      · rfl
      · rfl

theorem checkAchievements_stats (db : DB) (sid : Nat) :
    (checkAchievements db sid).user_stats = db.user_stats := by
  unfold checkAchievements
  split
  · rfl
  · split
    · rfl
    · split
      · rfl
      · rfl

theorem storyStatus_checkAchievements (db : DB) (t sid : Nat) :
    storyStatus (checkAchievements db t) sid = storyStatus db sid := by
  unfold storyStatus findStory
  rw [checkAchievements_stories]

theorem feedbackCount_updateStories (db : DB) (sid t : Nat) (f : Story → Story) :
    feedbackCount (updateStories db t f) sid = feedbackCount db sid := rfl

theorem feedbackCount_insertFeedback_self (db : DB) (row : FeedbackRow) :
    feedbackCount (insertFeedback db row) row.story_id
      = feedbackCount db row.story_id + 1 := by
  unfold feedbackCount insertFeedback
  simp

theorem feedbackCount_checkAchievements (db : DB) (t sid : Nat) :
    feedbackCount (checkAchievements db t) sid = feedbackCount db sid := by
  unfold feedbackCount
  rw [checkAchievements_feedback]

theorem catchBlock_consumed (req : Request) (db : DB)
    (h : req.bodyConsumed = true) : catchBlock req db = (db, []) := by
  unfold catchBlock consumeJson
  rw [h]
  rfl

/-- Normal form of a worker invocation in which the body parses, all three
writes succeed and the generated feedback carries a detailed_feedback
text. -/
theorem run_success (env : Env) (req : Request) (db : DB)
    (body : ProcessStoryRequest) (text : String)
    (hb : req.body = some body) (hc : req.bodyConsumed = false)
    (h1 : env.markProcessingFails = false) (h2 : env.feedbackInsertFails = false)
    (h3 : env.finalUpdateFails = false)
    (hfb : (generateFeedback env).detailed_feedback = some text) :
    processStoryHandler env req db =
      ⟨checkAchievements
         (setTranscriptCompleted
           (insertFeedback (setStatus db body.storyId Status.processing)
             ⟨body.storyId, text, (generateFeedback env).strengths,
              (generateFeedback env).improvements, (generateFeedback env).next_steps,
              (generateFeedback env).score⟩)
           body.storyId (transcribeAudio env))
         body.storyId,
       200,
       (body.storyId, Status.processing) :: (body.storyId, Status.completed) :: []⟩ := by
  unfold processStoryHandler consumeJson
  rw [hc, hb]
  simp [h1, h2, h3, hfb]

theorem findStory_insertFeedback (db : DB) (row : FeedbackRow) (sid : Nat) :
    findStory (insertFeedback db row) sid = findStory db sid := rfl

theorem findStory_setStatus_self (db : DB) (sid : Nat) (v : Status) :
    findStory (setStatus db sid v) sid
      = (findStory db sid).map (fun s => { s with processing_status := v }) :=
  findStory_updateStories_self db sid
    (fun s => { s with processing_status := v }) (fun _ => rfl)

theorem feedbackCount_setStatus (db : DB) (t : Nat) (v : Status) (sid : Nat) :
    feedbackCount (setStatus db t v) sid = feedbackCount db sid := rfl

theorem feedbackCount_setTranscriptCompleted (db : DB) (t : Nat) (tr : String) (sid : Nat) :
    feedbackCount (setTranscriptCompleted db t tr) sid = feedbackCount db sid := rfl

theorem storyTranscript_checkAchievements (db : DB) (t sid : Nat) :
    storyTranscript (checkAchievements db t) sid = storyTranscript db sid := by
  unfold storyTranscript findStory
  rw [checkAchievements_stories]

theorem storyTranscript_setTranscriptCompleted_self (db : DB) (sid : Nat) (tr : String) :
    storyTranscript (setTranscriptCompleted db sid tr) sid
      = (findStory db sid).map (fun _ => tr) := by
  unfold storyTranscript setTranscriptCompleted
  rw [findStory_updateStories_self db sid
    (fun s => { s with transcript := some tr, processing_status := Status.completed })
    (fun s => rfl)]
  cases findStory db sid <;> rfl

theorem storyStatus_setStatus_ne_failed (db : DB) (t sid : Nat)
    (h : ¬ storyStatus db sid = some Status.failed) :
    ¬ storyStatus (setStatus db t Status.processing) sid = some Status.failed := by
  by_cases he : t = sid
  · subst he
    rw [storyStatus_setStatus_self]
    cases storyStatus db t <;> simp
  · rw [storyStatus_setStatus_other db t sid _ he]
    exact h

theorem storyStatus_setTranscriptCompleted_ne_failed (db : DB) (t sid : Nat) (tr : String)
    (h : ¬ storyStatus db sid = some Status.failed) :
    ¬ storyStatus (setTranscriptCompleted db t tr) sid = some Status.failed := by
  by_cases he : t = sid
  · subst he
    rw [storyStatus_setTranscriptCompleted_self]
    cases storyStatus db t <;> simp
  · rw [storyStatus_setTranscriptCompleted_other db t sid tr he]
    exact h

theorem grantAttempt_error (g : List (Nat × String)) (uid : Nat) (aid : String) :
    grantAttempt g uid aid = Except.error "TypeError" := by
  unfold grantAttempt
  rw [if_neg]
  decide

theorem grantLoop_ok (g g2 : List (Nat × String)) (uid : Nat) (l : List String)
    (h : grantLoop g uid l = Except.ok g2) : g2 = g := by
  cases l with
  | nil =>
    simp only [grantLoop] at h
    cases h
    rfl
  | cons a rest =>
    simp only [grantLoop, grantAttempt_error] at h
    exact Except.noConfusion h

/-- The grant loop never changes the grant table: a nonempty loop dies on the
first thrown TypeError and the catch discards it, an empty loop writes
nothing. -/
theorem checkAchievements_grants_unchanged (db : DB) (sid : Nat) :
    (checkAchievements db sid).user_achievements = db.user_achievements := by
  unfold checkAchievements
  split
  · rfl
  · split
    · rfl
    · split
      · rename_i g2 hok
        rw [grantLoop_ok _ _ _ _ hok]
      · rfl

theorem generateFeedback_fallback (env : Env)
    (hkey : env.hasOpenAIKey = true)
    (h : (∃ e, env.gptResult = Except.error e) ∨ env.parseJson = none) :
    generateFeedback env = env.mockFeedback := by
  unfold generateFeedback
  rcases h with ⟨e, he⟩ | hp
  · simp [hkey, he]
  · cases hg : env.gptResult with
    | error e => simp [hkey, hg]
    | ok c => simp [hkey, hg, hp]

theorem transcribeAudio_fallback (env : Env) (e : String)
    (hkey : env.hasOpenAIKey = true)
    (hw : env.whisperResult = Except.error e) :
    transcribeAudio env = env.mockTranscript := by
  unfold transcribeAudio
  simp [hkey, hw]

/-- Final state of a successful worker run on an existing story: status
completed, the produced transcript persisted, exactly one feedback row
added. -/
theorem run_success_state (env : Env) (req : Request) (db : DB)
    (body : ProcessStoryRequest) (text : String) (s : Story)
    (hb : req.body = some body) (hc : req.bodyConsumed = false)
    (h1 : env.markProcessingFails = false) (h2 : env.feedbackInsertFails = false)
    (h3 : env.finalUpdateFails = false)
    (hfb : (generateFeedback env).detailed_feedback = some text)
    (hs : findStory db body.storyId = some s) :
    (processStoryHandler env req db).httpStatus = 200 ∧
    storyStatus (processStoryHandler env req db).db body.storyId = some Status.completed ∧
    storyTranscript (processStoryHandler env req db).db body.storyId
      = some (transcribeAudio env) ∧
    feedbackCount (processStoryHandler env req db).db body.storyId
      = feedbackCount db body.storyId + 1 := by
  rw [run_success env req db body text hb hc h1 h2 h3 hfb]
  refine ⟨rfl, ?_, ?_, ?_⟩
  · rw [storyStatus_checkAchievements, storyStatus_setTranscriptCompleted_self,
      storyStatus_insertFeedback, storyStatus_setStatus_self]
    unfold storyStatus
    rw [hs]
    rfl
  · rw [storyTranscript_checkAchievements, storyTranscript_setTranscriptCompleted_self,
      findStory_insertFeedback, findStory_setStatus_self, hs]
    rfl
  · rw [feedbackCount_checkAchievements, feedbackCount_setTranscriptCompleted,
      feedbackCount_insertFeedback_self, feedbackCount_setStatus]

theorem ceilDiv60_eq (d : Nat) :
    ceilDiv60 d = d / 60 + (if d % 60 = 0 then 0 else 1) := by
  unfold ceilDiv60
  by_cases h : d % 60 = 0
  · rw [if_pos h]
    omega
  · rw [if_neg h]
    omega

theorem foldl_ceil_eq (l : List Nat) (n : Nat) :
    l.foldl (fun s d => s + ceilDiv60 d) n = n + (l.map ceilDiv60).sum := by
  induction l generalizing n with
  | nil => simp
  | cons a l ih =>
    rw [List.foldl_cons, ih, List.map_cons, List.sum_cons]
    omega

theorem map_ceil_eq (l : List Nat) :
    l.map ceilDiv60 = l.map (fun d => d / 60 + (if d % 60 = 0 then 0 else 1)) := by
  induction l with
  | nil => rfl
  | cons a l ih => rw [List.map_cons, List.map_cons, ih, ceilDiv60_eq]

/-! Concrete fixtures used by counterexamples and witnesses. -/

def mockFb : GenFeedback :=
  { detailed_feedback := some "mock feedback"
    strengths := ["strong imagery"]
    improvements := ["add dialogue"]
    next_steps := ["record again"]
    score := 8 }

def okParsed : ParsedFeedback :=
  { detailed_feedback := some "great story"
    strengths := some ["clear voice"]
    improvements := some ["pacing"]
    next_steps := some ["try a new genre"]
    score := some 9 }

def envAllOk : Env :=
  { hasOpenAIKey := true
    whisperResult := Except.ok "a told story"
    mockTranscript := "mock transcript"
    gptResult := Except.ok "raw json"
    parseJson := some okParsed
    mockFeedback := mockFb
    markProcessingFails := false
    feedbackInsertFails := false
    finalUpdateFails := false }

def envWhisperDown : Env := { envAllOk with whisperResult := Except.error "network down" }

def envGptDown : Env := { envAllOk with gptResult := Except.error "network down" }

def story1 (st : Status) : Story :=
  { id := 1
    user_id := 7
    genre := "fantasy"
    duration_seconds := 120
    audio_url := some "audio url"
    transcript := none
    feedback_personality := "encouraging"
    processing_status := st
    created_at := 100 }

def db1 (st : Status) : DB :=
  { stories := [story1 st]
    story_feedback := []
    user_achievements := []
    user_stats := [] }

def body1 : ProcessStoryRequest :=
  { storyId := 1, audioUrl := "audio url", feedbackPersonality := "encouraging" }

def req1 : Request := { body := some body1, bodyConsumed := false }

def dbAfterTwoRuns : DB :=
  (processStoryHandler envAllOk req1
    (processStoryHandler envAllOk req1 (db1 Status.pending)).db).db

def stats1 : UserStatsRow :=
  { user_id := 7
    total_stories := 1
    total_minutes := 2
    current_streak := 1
    longest_streak := 1
    favorite_genre := some "fantasy"
    last_story_date := some 100 }

def dbGrant : DB :=
  { stories := [story1 Status.completed]
    story_feedback := []
    user_achievements := []
    user_stats := [stats1] }

def stats0 : UserStatsRow :=
  { user_id := 7
    total_stories := 0
    total_minutes := 0
    current_streak := 0
    longest_streak := 0
    favorite_genre := none
    last_story_date := none }

def trackedSt : ClientState :=
  { processingStoryId := some 1
    cache := [{ id := 1, processing_status := Status.processing, story_feedback := [] }] }

/-! Claim theorems. -/

/-- Claim C1 counterexample: the transcription capability call fails (the
whisper outcome is a network error), yet the worker does not mark the job
failed and does not stop: the run returns 200, the job ends completed, the
mock transcript is persisted, and a feedback row is written. This refutes
the claim that any transcription error marks the job failed with no
transcript persisted. -/
theorem c1_counterexample :
    envWhisperDown.whisperResult = Except.error "network down" ∧
    (processStoryHandler envWhisperDown req1 (db1 Status.pending)).httpStatus = 200 ∧
    storyStatus (processStoryHandler envWhisperDown req1 (db1 Status.pending)).db 1
      = some Status.completed ∧
    ¬ storyStatus (processStoryHandler envWhisperDown req1 (db1 Status.pending)).db 1
      = some Status.failed ∧
    storyTranscript (processStoryHandler envWhisperDown req1 (db1 Status.pending)).db 1
      = some "mock transcript" ∧
    feedbackCount (processStoryHandler envWhisperDown req1 (db1 Status.pending)).db 1 = 1 := by
  refine ⟨rfl, rfl, rfl, ?_, rfl, rfl⟩
  decide

/-- Claim C1 amended: a transcription capability error never fails the job;
transcribeAudio falls back to the mock transcript and the worker continues,
so an otherwise-successful run completes the job with the mock transcript
persisted. -/
theorem c1_amended_transcription_fallback (env : Env) (req : Request) (db : DB)
    (body : ProcessStoryRequest) (text e : String) (s : Story)
    (hkey : env.hasOpenAIKey = true)
    (hw : env.whisperResult = Except.error e)
    (hb : req.body = some body) (hc : req.bodyConsumed = false)
    (h1 : env.markProcessingFails = false) (h2 : env.feedbackInsertFails = false)
    (h3 : env.finalUpdateFails = false)
    (hfb : (generateFeedback env).detailed_feedback = some text)
    (hs : findStory db body.storyId = some s) :
    transcribeAudio env = env.mockTranscript ∧
    (processStoryHandler env req db).httpStatus = 200 ∧
    storyStatus (processStoryHandler env req db).db body.storyId = some Status.completed ∧
    storyTranscript (processStoryHandler env req db).db body.storyId
      = some env.mockTranscript := by
  have htr := transcribeAudio_fallback env e hkey hw
  obtain ⟨hcode, hstat, htrans, -⟩ :=
    run_success_state env req db body text s hb hc h1 h2 h3 hfb hs
  exact ⟨htr, hcode, hstat, by rw [htrans, htr]⟩

/-- Claim C1 amended witness at concrete inputs. -/
theorem c1_amended_witness :
    transcribeAudio envWhisperDown = envWhisperDown.mockTranscript ∧
    (processStoryHandler envWhisperDown req1 (db1 Status.pending)).httpStatus = 200 ∧
    storyStatus (processStoryHandler envWhisperDown req1 (db1 Status.pending)).db
      body1.storyId = some Status.completed ∧
    storyTranscript (processStoryHandler envWhisperDown req1 (db1 Status.pending)).db
      body1.storyId = some envWhisperDown.mockTranscript :=
  c1_amended_transcription_fallback envWhisperDown req1 (db1 Status.pending) body1
    "great story" "network down" (story1 Status.pending)
    rfl rfl rfl rfl rfl rfl rfl rfl rfl

/-- Claim C2 counterexample: running the worker a second time on the same
already-completed job (the explicit retry re-enters at the transcription
step) inserts a second feedback row because story_feedback has no
uniqueness on story_id, leaving a completed job with two feedback records. -/
theorem c2_counterexample :
    storyStatus dbAfterTwoRuns 1 = some Status.completed ∧
    feedbackCount dbAfterTwoRuns 1 = 2 ∧
    ¬ feedbackCount dbAfterTwoRuns 1 = 1 := by
  refine ⟨rfl, rfl, ?_⟩
  decide

/-- Claim C2 amended: one successful worker run on a job with no prior
feedback leaves the job completed with exactly one feedback record; the
iff fails only under re-processing, which appends further rows. -/
theorem c2_amended_single_run (env : Env) (req : Request) (db : DB)
    (body : ProcessStoryRequest) (text : String) (s : Story)
    (hb : req.body = some body) (hc : req.bodyConsumed = false)
    (h1 : env.markProcessingFails = false) (h2 : env.feedbackInsertFails = false)
    (h3 : env.finalUpdateFails = false)
    (hfb : (generateFeedback env).detailed_feedback = some text)
    (hs : findStory db body.storyId = some s)
    (h0 : feedbackCount db body.storyId = 0) :
    storyStatus (processStoryHandler env req db).db body.storyId = some Status.completed ∧
    feedbackCount (processStoryHandler env req db).db body.storyId = 1 := by
  obtain ⟨-, hstat, -, hcount⟩ :=
    run_success_state env req db body text s hb hc h1 h2 h3 hfb hs
  refine ⟨hstat, ?_⟩
  rw [hcount, h0]

/-- Claim C2 amended witness at concrete inputs. -/
theorem c2_amended_witness :
    storyStatus (processStoryHandler envAllOk req1 (db1 Status.pending)).db
      body1.storyId = some Status.completed ∧
    feedbackCount (processStoryHandler envAllOk req1 (db1 Status.pending)).db
      body1.storyId = 1 :=
  c2_amended_single_run envAllOk req1 (db1 Status.pending) body1 "great story"
    (story1 Status.pending) rfl rfl rfl rfl rfl rfl rfl rfl

/-- Claim C5 counterexample: the feedback-generation capability call fails
(network error), yet no job is marked failed and a feedback row is still
created for the job by that run: generateFeedback falls back to the mock
feedback, the run returns 200 and the job completes. -/
theorem c5_counterexample :
    envGptDown.gptResult = Except.error "network down" ∧
    (processStoryHandler envGptDown req1 (db1 Status.pending)).httpStatus = 200 ∧
    storyStatus (processStoryHandler envGptDown req1 (db1 Status.pending)).db 1
      = some Status.completed ∧
    ¬ storyStatus (processStoryHandler envGptDown req1 (db1 Status.pending)).db 1
      = some Status.failed ∧
    feedbackCount (processStoryHandler envGptDown req1 (db1 Status.pending)).db 1 = 1 ∧
    ((processStoryHandler envGptDown req1 (db1 Status.pending)).db.story_feedback.map
      (fun f => f.feedback_text)) = ["mock feedback"] := by
  refine ⟨rfl, rfl, rfl, ?_, rfl, rfl⟩
  decide

/-- Claim C5 amended: a feedback capability error or a JSON parse failure is
absorbed, not treated as a job failure: generateFeedback returns the mock
feedback and an otherwise-successful run still inserts a (mock) feedback row
and completes the job. -/
theorem c5_amended_feedback_fallback (env : Env) (req : Request) (db : DB)
    (body : ProcessStoryRequest) (mtext : String) (s : Story)
    (hkey : env.hasOpenAIKey = true)
    (hgen : (∃ e, env.gptResult = Except.error e) ∨ env.parseJson = none)
    (hmock : env.mockFeedback.detailed_feedback = some mtext)
    (hb : req.body = some body) (hc : req.bodyConsumed = false)
    (h1 : env.markProcessingFails = false) (h2 : env.feedbackInsertFails = false)
    (h3 : env.finalUpdateFails = false)
    (hs : findStory db body.storyId = some s) :
    generateFeedback env = env.mockFeedback ∧
    (processStoryHandler env req db).httpStatus = 200 ∧
    storyStatus (processStoryHandler env req db).db body.storyId = some Status.completed ∧
    feedbackCount (processStoryHandler env req db).db body.storyId
      = feedbackCount db body.storyId + 1 := by
  have hfall := generateFeedback_fallback env hkey hgen
  have hfb : (generateFeedback env).detailed_feedback = some mtext := by
    rw [hfall]
    exact hmock
  obtain ⟨hcode, hstat, -, hcount⟩ :=
    run_success_state env req db body mtext s hb hc h1 h2 h3 hfb hs
  exact ⟨hfall, hcode, hstat, hcount⟩

/-- Claim C5 amended witness at concrete inputs. -/
theorem c5_amended_witness :
    generateFeedback envGptDown = envGptDown.mockFeedback ∧
    (processStoryHandler envGptDown req1 (db1 Status.pending)).httpStatus = 200 ∧
    storyStatus (processStoryHandler envGptDown req1 (db1 Status.pending)).db
      body1.storyId = some Status.completed ∧
    feedbackCount (processStoryHandler envGptDown req1 (db1 Status.pending)).db
      body1.storyId = feedbackCount (db1 Status.pending) body1.storyId + 1 :=
  c5_amended_feedback_fallback envGptDown req1 (db1 Status.pending) body1
    "mock feedback" (story1 Status.pending) rfl (Or.inl ⟨"network down", rfl⟩)
    rfl rfl rfl rfl rfl rfl rfl

/-- Claim C9: the catch handler re-reads the already-consumed request body,
so its second req.json() always throws and the failed write never executes;
consequently no invocation of the worker handler can move a job into the
failed status. -/
theorem c9_catch_cannot_mark_failed :
    (∀ req db, req.bodyConsumed = true → catchBlock req db = (db, [])) ∧
    (∀ env req db sid, ¬ storyStatus db sid = some Status.failed →
      ¬ storyStatus (processStoryHandler env req db).db sid = some Status.failed) := by
  constructor
  · intro req db h
    exact catchBlock_consumed req db h
  · intro env req db sid h
    have hcons : (consumeJson req).2.bodyConsumed = true := rfl
    unfold processStoryHandler
    cases hp : (consumeJson req).1 with
    | error e =>
      simp only [hp]
      rw [catchBlock_consumed _ db hcons]
      exact h
    | ok body =>
      simp only [hp]
      by_cases hm : env.markProcessingFails = true
      · rw [if_pos hm, catchBlock_consumed _ db hcons]
        exact h
      · rw [if_neg hm]
        have hdb1 := storyStatus_setStatus_ne_failed db body.storyId sid h
        cases hd : (generateFeedback env).detailed_feedback with
        | none =>
          simp only [hd]
          rw [catchBlock_consumed _ _ hcons]
          exact hdb1
        | some text =>
          simp only [hd]
          by_cases hf : env.feedbackInsertFails = true
          · rw [if_pos hf, catchBlock_consumed _ _ hcons]
            exact hdb1
          · rw [if_neg hf]
            by_cases hu : env.finalUpdateFails = true
            · rw [if_pos hu, catchBlock_consumed _ _ hcons]
              exact hdb1
            · rw [if_neg hu]
              show ¬ storyStatus (checkAchievements _ _) sid = some Status.failed
              rw [storyStatus_checkAchievements]
              exact storyStatus_setTranscriptCompleted_ne_failed _ body.storyId sid
                (transcribeAudio env) hdb1

/-- Claim C9 witness at concrete inputs. -/
theorem c9_witness :
    catchBlock { body := some body1, bodyConsumed := true } (db1 Status.pending)
      = (db1 Status.pending, []) ∧
    ¬ storyStatus (processStoryHandler envAllOk req1 (db1 Status.pending)).db 1
      = some Status.failed :=
  ⟨c9_catch_cannot_mark_failed.1 { body := some body1, bodyConsumed := true }
      (db1 Status.pending) rfl,
   c9_catch_cannot_mark_failed.2 envAllOk req1 (db1 Status.pending) 1 (by decide)⟩

/-- Claim C3 counterexample: re-invoking the worker on a job already in
failed status (the explicit retry path) makes the first write produce the
backward transition failed to processing, which the claim names as
unreachable. -/
theorem c3_counterexample :
    (Status.failed, Status.processing) ∈
      transitionsFor (db1 Status.failed)
        (processStoryHandler envAllOk req1 (db1 Status.failed)).writes 1 ∧
    forwardTransition Status.failed Status.processing = false := by
  constructor
  · decide
  · rfl

/-- Claim C3 amended: within a single successful worker run on a pending
job the status write sequence is forward-only (pending to processing to
completed); but no operation guards transitions: db.updateStory writes
whatever status is requested regardless of the current one, which is how
backward transitions become reachable on re-invocation. -/
theorem c3_amended_forward_within_run (env : Env) (req : Request) (db : DB)
    (body : ProcessStoryRequest) (text : String)
    (hb : req.body = some body) (hc : req.bodyConsumed = false)
    (h1 : env.markProcessingFails = false) (h2 : env.feedbackInsertFails = false)
    (h3 : env.finalUpdateFails = false)
    (hfb : (generateFeedback env).detailed_feedback = some text)
    (hp : storyStatus db body.storyId = some Status.pending) :
    transitionsFor db (processStoryHandler env req db).writes body.storyId
      = [(Status.pending, Status.processing), (Status.processing, Status.completed)] ∧
    (∀ p ∈ transitionsFor db (processStoryHandler env req db).writes body.storyId,
      forwardTransition p.1 p.2 = true) ∧
    (∀ db2 sid p2 s2 v, findStory db2 sid = some s2 → p2.processing_status = some v →
      storyStatus (updateStory db2 sid p2) sid = some v) := by
  have htr : transitionsFor db (processStoryHandler env req db).writes body.storyId
      = [(Status.pending, Status.processing), (Status.processing, Status.completed)] := by
    rw [run_success env req db body text hb hc h1 h2 h3 hfb]
    unfold transitionsFor
    rw [hp]
    simp
  refine ⟨htr, ?_, ?_⟩
  · intro p hp2
    rw [htr] at hp2
    rcases List.mem_cons.mp hp2 with rfl | hp3
    · rfl
    · rcases List.mem_cons.mp hp3 with rfl | hp4
      · rfl
      · cases hp4
  · intro db2 sid p2 s2 v hs2 hv
    unfold updateStory storyStatus
    rw [findStory_updateStories_self db2 sid (applyPatch p2) (fun s => rfl), hs2]
    simp [applyPatch, hv]

/-- Claim C3 amended witness at concrete inputs. -/
theorem c3_amended_witness :
    transitionsFor (db1 Status.pending)
      (processStoryHandler envAllOk req1 (db1 Status.pending)).writes body1.storyId
      = [(Status.pending, Status.processing), (Status.processing, Status.completed)] :=
  (c3_amended_forward_within_run envAllOk req1 (db1 Status.pending) body1 "great story"
    rfl rfl rfl rfl rfl rfl rfl).1

/-- Claim C4 counterexample: a single job created yesterday (day 99, today
day 100) yields current streak 0 in the deletion recompute, not the claimed
1 for a first job dated today or yesterday: the loop requires the run to
start today. -/
theorem c4_counterexample :
    currentStreakAfterDeletion 100 [99] = 0 ∧
    ¬ currentStreakAfterDeletion 100 [99] = 1 := by
  decide

/-- Claim C4 amended: the deletion recompute counts a run that must start
today: consecutive days [today, today - 1, today - 2] give streak 3, a gap
ends the run, and a lone job dated yesterday gives 0; the recompute leaves
longest_streak untouched rather than deriving it from history, and the
part_008 insert trigger starts a fresh record at streak 1 regardless of
date. -/
theorem c4_amended_streak_shapes (D : Int) (prev : UserStatsRow) (today : Int)
    (stories : List Story) :
    currentStreakAfterDeletion D [D, D - 1, D - 2] = 3 ∧
    currentStreakAfterDeletion D [D, D - 2] = 1 ∧
    currentStreakAfterDeletion D [D - 1] = 0 ∧
    (statsAfterDeletion prev today stories).longest_streak = prev.longest_streak ∧
    (∀ uid d date, (part008InsertStats none uid d date none).current_streak = 1) := by
  refine ⟨?_, ?_, ?_, rfl, fun uid d date => rfl⟩
  · simp [currentStreakAfterDeletion, deleteStreakLoop, sub_self, sub_sub_cancel]
  · simp [currentStreakAfterDeletion, deleteStreakLoop, sub_self, sub_sub_cancel]
  · simp [currentStreakAfterDeletion, deleteStreakLoop, sub_sub_cancel]

/-- Claim C4 amended witness at concrete inputs. -/
theorem c4_amended_witness :
    currentStreakAfterDeletion 50 [50, 50 - 1, 50 - 2] = 3 :=
  (c4_amended_streak_shapes 50 stats0 50 []).1

/-- Claim C6 counterexample: the insert trigger of the late_flame migration
adds duration / 60 with flooring integer division: a 90 second story adds 1
minute there while the ceiling formula gives 2. -/
theorem c6_counterexample :
    (lateFlameInsertStats none 7 90 100).total_minutes = 1 ∧
    specTotalMinutes [90] = 2 ∧
    ¬ (lateFlameInsertStats none 7 90 100).total_minutes = specTotalMinutes [90] := by
  decide

/-- Claim C6 amended: the deletion recompute equals the ceiling-sum formula
and the part_008 insert trigger adds the ceiling per story, but the
late_flame insert trigger adds the floor, so the insert-time path disagrees
with the ceiling formula whenever the duration is not a multiple of 60. -/
theorem c6_amended_total_minutes (durations : List Nat) (prev : UserStatsRow)
    (uid : Nat) (d : Nat) (date : Int) (g : Option String) :
    totalMinutesAfterDeletion durations = specTotalMinutes durations ∧
    (part008InsertStats (some prev) uid d date g).total_minutes
      = prev.total_minutes + (d / 60 + (if d % 60 = 0 then 0 else 1)) ∧
    (lateFlameInsertStats (some prev) uid d date).total_minutes
      = prev.total_minutes + d / 60 := by
  refine ⟨?_, ?_, rfl⟩
  · unfold totalMinutesAfterDeletion specTotalMinutes
    rw [foldl_ceil_eq, map_ceil_eq]
    exact Nat.zero_add _
  · show prev.total_minutes + ceilDiv60 d = _
    rw [ceilDiv60_eq]

/-- Claim C6 amended witness at concrete inputs. -/
theorem c6_amended_witness :
    totalMinutesAfterDeletion [90, 30] = specTotalMinutes [90, 30] :=
  (c6_amended_total_minutes [90, 30] stats0 7 90 100 none).1

/-- Claim C7 is right about the intent and wrong about the program: the
grant chain insert(record).onConflict(cols).ignore() does not exist on the
supabase-js v2 insert builder, so the first grant attempt throws a
TypeError, the checkAchievements catch swallows it, and no grant row is
ever inserted. At the failing input (a completed first story whose owner
stats make first_story due) the grant set stays empty after one and after
two passes, and in general checkAchievements never changes the
user_achievements table, so repeated grant attempts converge to zero rows,
not to the exactly-one row the claim (and the schema unique constraint)
intend. -/
theorem c7_grant_never_inserts :
    grantAttempt [] 7 "first_story" = Except.error "TypeError" ∧
    achievementsToGrant stats1 (story1 Status.completed) = ["first_story"] ∧
    (checkAchievements dbGrant 1).user_achievements = [] ∧
    (checkAchievements (checkAchievements dbGrant 1) 1).user_achievements = [] ∧
    (∀ db sid, (checkAchievements db sid).user_achievements
      = db.user_achievements) :=
  ⟨rfl, rfl, rfl, rfl, checkAchievements_grants_unchanged⟩

/-- Claim C8 counterexample: in the realtime UPDATE handler at
useStories.ts lines 43-75, a completed event for the tracked story clears
the tracked id after the feedback fetch even when no feedback row is
readable yet: the job is resolved with zero feedback visible. -/
theorem c8_counterexample :
    fetchFeedback [] 1 = [] ∧
    (realtimeUpdateV1 [] trackedSt
      { id := 1, processing_status := Status.completed }).processingStoryId = none := by
  exact ⟨rfl, rfl⟩

/-- Claim C8 amended: the variant whose loadStoryFeedback sits at
useStories.ts lines 609-642 does satisfy the property: on a completed event
for the tracked story it stays in tracking when the fetched feedback list is
empty and leaves tracking only when feedback is present; the handler at
lines 43-75 clears tracking unconditionally after the fetch. -/
theorem c8_amended_v3_waits (stories : List CachedStory) (visible : List FeedbackRow)
    (st : ClientState) (u : StoryEvent)
    (htrack : st.processingStoryId = some u.id)
    (hstatus : u.processing_status = Status.completed) :
    (fetchFeedback visible u.id = [] →
      (realtimeUpdateV3 stories visible st u).processingStoryId = some u.id) ∧
    (¬ fetchFeedback visible u.id = [] →
      (realtimeUpdateV3 stories visible st u).processingStoryId = none) := by
  constructor
  · intro hemp
    simp [realtimeUpdateV3, hstatus, htrack, loadStoryFeedbackV3, hemp, mergeCache,
      updateCacheFeedback]
  · intro hne
    have hlen : 0 < (fetchFeedback visible u.id).length := List.length_pos.mpr hne
    simp [realtimeUpdateV3, hstatus, htrack, loadStoryFeedbackV3, hlen, mergeCache,
      updateCacheFeedback]

/-- Claim C8 amended witness at concrete inputs. -/
theorem c8_amended_witness :
    (realtimeUpdateV3 [] [] trackedSt
      { id := 1, processing_status := Status.completed }).processingStoryId = some 1 :=
  (c8_amended_v3_waits [] [] trackedSt
    { id := 1, processing_status := Status.completed } rfl rfl).1 rfl

/-- Claim C10: db.getUserStories with the default limit returns at most 10
stories, all owned by the requested user, and they are the newest by
created_at: any of the owners stories left out is no newer than any story
returned. -/
theorem c10_list_by_owner_ten_newest (stories : List Story) (uid : Nat) :
    (getUserStoriesDefault stories uid).length ≤ 10 ∧
    (∀ s ∈ getUserStoriesDefault stories uid, s.user_id = uid) ∧
    (∀ s ∈ getUserStoriesDefault stories uid, ∀ t ∈ stories, t.user_id = uid →
      ¬ t ∈ getUserStoriesDefault stories uid → t.created_at ≤ s.created_at) := by
  refine ⟨?_, ?_, ?_⟩
  · unfold getUserStoriesDefault getUserStories
    exact List.length_take_le 10 _
  · intro s hs
    unfold getUserStoriesDefault getUserStories at hs
    have h1 := List.mem_of_mem_take hs
    have h2 := (List.perm_insertionSort newerEq _).mem_iff.mp h1
    have h3 := List.mem_filter.mp h2
    simpa using h3.2
  · intro s hs t ht htu htn
    unfold getUserStoriesDefault getUserStories at hs htn
    have htf : t ∈ stories.filter (fun s2 => s2.user_id == uid) :=
      List.mem_filter.mpr ⟨ht, by simp [htu]⟩
    have htls : t ∈ List.insertionSort newerEq
        (stories.filter (fun s2 => s2.user_id == uid)) :=
      (List.perm_insertionSort newerEq _).mem_iff.mpr htf
    have hsplit := List.take_append_drop 10
      (List.insertionSort newerEq (stories.filter (fun s2 => s2.user_id == uid)))
    rw [← hsplit] at htls
    rcases List.mem_append.mp htls with hta | htd
    · exact absurd hta htn
    · exact (List.sorted_insertionSort newerEq _).rel_of_mem_take_of_mem_drop hs htd

/-- Claim C10 witness at concrete inputs. -/
theorem c10_witness :
    (getUserStoriesDefault [story1 Status.pending] 7).length ≤ 10 :=
  (c10_list_by_owner_ten_newest [story1 Status.pending] 7).1

end Storyteller
